import Mathlib

/-!
Verification of the SL1_TOPOLOGY probe scripts.

The repository consists of three standalone Python scripts
(`test_graphql.py`, `test_fields.py`, `correct_query.py`) that POST
hard-coded GraphQL queries to an SL1 endpoint with HTTP basic
authentication and print the `data` / `errors` parts of the JSON
response.  This file gives a shallow embedding of the three scripts:

* `Json` models the JSON-like values flowing through the scripts;
* `HttpRequest` models one `requests.post(...)` invocation (URL, JSON
  body, basic-auth credentials, TLS-verification flag);
* `HttpOutcome` models what the transport plus `response.json()` can
  do: deliver a parsed body, or raise an exception;
* `testQueryGraphql` / `testQueryFields` embed the two `test_query`
  helper functions; `testGraphqlScript`, `testFieldsScript` and
  `correctQueryScript` embed the whole scripts, fed by an arbitrary
  `server : HttpRequest → HttpOutcome`.

Each embedded call records the list of HTTP requests it issued, the
lines printed to standard output, and (for whole scripts) whether an
exception escaped to the top level (Python then exits with status 1).
-/

/-- JSON-like values, as produced by `response.json()` in the scripts. -/
inductive Json where
  | null : Json
  | bool : Bool → Json
  | num : Int → Json
  | str : String → Json
  | arr : List Json → Json
  | obj : List (String × Json) → Json

/-- Python key-membership test `k in d` for a parsed JSON body.  The
scripts only apply it after `response.json()` returned a dict; for any
non-object value we return `false`. -/
def Json.hasKey (j : Json) (k : String) : Bool :=
  match j with
  | .obj fs => fs.any (fun p => p.1 == k)
  | _ => false

/-- Python subscript `d[k]` on a parsed JSON object (the scripts only
use it under a `k in d` guard, so the default value is never relevant). -/
def Json.getKey (j : Json) (k : String) : Json :=
  match j with
  | .obj fs => (fs.lookup k).getD .null
  | _ => .null

/-- Keys of a JSON object, in order. -/
def Json.keys : Json → List String
  | .obj fs => fs.map Prod.fst
  | _ => []

/-- Python truthiness of a JSON-like value (`bool(x)`): `None`, `0`,
empty strings, empty lists and empty dicts are falsy. -/
def Json.pyTruthy : Json → Bool
  | .null => false
  | .bool b => b
  | .num n => n != 0
  | .str s => s != ""
  | .arr xs => !xs.isEmpty
  | .obj fs => !fs.isEmpty

mutual
/-- Serialisation of a JSON value, standing in for `json.dumps(x, indent=2)`
in the printed output (the scripts' claims never inspect this text, only
the marker lines around it, so the exact layout is immaterial). -/
def dumps : Json → String
  | .null => "null"
  | .bool true => "true"
  | .bool false => "false"
  | .num n => toString n
  | .str s => "\"" ++ s ++ "\""
  | .arr xs => "[" ++ dumpsList xs ++ "]"
  | .obj fs => "\x7b" ++ dumpsFields fs ++ "\x7d"

/-- Serialisation of the elements of a JSON array. -/
def dumpsList : List Json → String
  | [] => ""
  | [x] => dumps x
  | x :: xs => dumps x ++ ", " ++ dumpsList xs

/-- Serialisation of the fields of a JSON object. -/
def dumpsFields : List (String × Json) → String
  | [] => ""
  | [(k, v)] => "\"" ++ k ++ "\": " ++ dumps v
  | (k, v) :: fs => "\"" ++ k ++ "\": " ++ dumps v ++ ", " ++ dumpsFields fs
end

/-- Module-level endpoint constant `SL1_URL`, identical in all three scripts. -/
def SL1_URL : String := "https://52.3.210.190/gql"

/-- Module-level username constant `SL1_USER`, identical in all three scripts. -/
def SL1_USER : String := "rpoppes_gql"

/-- Module-level password constant `SL1_PASS`, identical in all three scripts. -/
def SL1_PASS : String := "T3stSL!pwd"

/-- One `requests.post(url, json=body, auth=(user, pw), verify=v)` call:
the method is always POST, the body is sent as JSON, and the `auth` pair
becomes an HTTP basic-auth Authorization header. -/
structure HttpRequest where
  method : String
  url : String
  body : Json
  authUser : String
  authPass : String
  verify : Bool

/-- What one posted request can come back as: a body that parsed as JSON
(`response.json()` succeeded), or an exception raised by the transport
(DNS failure, connection refused, timeout, TLS failure) or by the JSON
parse.  The embedded scripts are run against an arbitrary
`server : HttpRequest → HttpOutcome`. -/
inductive HttpOutcome where
  | ok : Json → HttpOutcome
  | exn : String → HttpOutcome

/-- Characters of a URL after the `://` scheme separator. -/
def afterSchemeChars : List Char → List Char
  | ':' :: '/' :: '/' :: rest => rest
  | _ :: rest => afterSchemeChars rest
  | [] => []

/-- Path component of a URL: everything from the first `/` after the
host.  `urlPath SL1_URL = "/gql"`. -/
def urlPath (u : String) : String :=
  String.mk ((afterSchemeChars u.toList).dropWhile (fun c => c != '/'))

/-- Trace of one embedded `test_query` call: the HTTP requests it issued
and the lines it printed. -/
structure CallTrace where
  requests : List HttpRequest
  output : List String

/-- Trace of one whole script run: requests issued, lines printed to
stdout, and the exception that escaped to the top level, if any
(CPython prints its traceback to stderr and exits with status 1). -/
structure ScriptRun where
  requests : List HttpRequest
  output : List String
  uncaught : Option String

/-- Exit status of a script run: 0 on normal completion, 1 when an
uncaught exception terminated the interpreter. -/
def ScriptRun.exitCode (r : ScriptRun) : Nat :=
  if r.uncaught.isSome then 1 else 0

/-- The 60-character `'='*60` separator used by `test_graphql.py`. -/
def sep60 : String := String.mk (List.replicate 60 '=')

/-- The 50-character `'='*50` separator used by `test_fields.py` and
`correct_query.py`. -/
def sep50 : String := String.mk (List.replicate 50 '=')

/-- Python `variables or \x7b\x7d` in `test_graphql.py`: the default
`None` and any falsy value are replaced by the empty JSON object. -/
def variablesOrEmpty : Option Json → Json
  | none => Json.obj []
  | some j => if j.pyTruthy then j else Json.obj []

/-- The request posted by `test_query` in `test_graphql.py`: POST to
`SL1_URL` with JSON body `\x7b"query": query, "variables": variables or
\x7b\x7d\x7d`, `auth=(SL1_USER, SL1_PASS)`, `verify=False`. -/
def graphqlRequest (query : String) (vars : Option Json) : HttpRequest :=
  { method := "POST", url := SL1_URL,
    body := Json.obj [("query", Json.str query),
                      ("variables", variablesOrEmpty vars)],
    authUser := SL1_USER, authPass := SL1_PASS, verify := false }

/-- The request posted by `test_query` in `test_fields.py`: POST to
`SL1_URL` with JSON body `\x7b"query": query\x7d` (no `variables` key),
`auth=(SL1_USER, SL1_PASS)`, `verify=False`. -/
def fieldsRequest (query : String) : HttpRequest :=
  { method := "POST", url := SL1_URL,
    body := Json.obj [("query", Json.str query)],
    authUser := SL1_USER, authPass := SL1_PASS, verify := false }

/-- The three banner lines printed at the top of `test_query` in
`test_graphql.py` (before the `try` block). -/
def gqlBanner (queryName : String) : List String :=
  ["\n" ++ sep60, "Testing: " ++ queryName, sep60]

/-- The three banner lines printed at the top of `test_query` in
`test_fields.py` (before the `try` block). -/
def fieldsBanner (queryName : String) : List String :=
  ["\n" ++ sep50, "Testing: " ++ queryName, sep50]

/-- Embedding of `test_query(query_name, query, variables=None)` from
`test_graphql.py`: prints the banner, posts the request, and — inside a
catch-all `try`/`except` — prints the `errors` and/or `data` parts of
the parsed body, or the exception message if the post or the JSON parse
raised. -/
def testQueryGraphql (queryName query : String) (vars : Option Json)
    (server : HttpRequest → HttpOutcome) : CallTrace :=
  let req := graphqlRequest query vars
  let rest :=
    match server req with
    | .exn e => ["❌ Request failed: " ++ e]
    | .ok result =>
        (if result.hasKey "errors" then
          ["❌ GraphQL Errors:", dumps (result.getKey "errors")]
         else [])
        ++
        (if result.hasKey "data" then
          ["✅ Data received:", dumps (result.getKey "data")]
         else [])
  { requests := [req], output := gqlBanner queryName ++ rest }

/-- Embedding of `test_query(query_name, query)` from `test_fields.py`:
same structure as in `test_graphql.py` but the body has no `variables`
key and the marker lines read `❌ Errors:` / `✅ Data:`. -/
def testQueryFields (queryName query : String)
    (server : HttpRequest → HttpOutcome) : CallTrace :=
  let req := fieldsRequest query
  let rest :=
    match server req with
    | .exn e => ["❌ Request failed: " ++ e]
    | .ok result =>
        (if result.hasKey "errors" then
          ["❌ Errors:", dumps (result.getKey "errors")]
         else [])
        ++
        (if result.hasKey "data" then
          ["✅ Data:", dumps (result.getKey "data")]
         else [])
  { requests := [req], output := fieldsBanner queryName ++ rest }

/-- Literal `query1` from `test_graphql.py` (basic devices query). -/
def query1 : String :=
  "\nquery \x7b\n  devices(first: 2) \x7b\n    edges \x7b\n      node \x7b\n        id\n        name\n      \x7d\n    \x7d\n  \x7d\n\x7d\n"

/-- Literal `query2` from `test_graphql.py` (devices with more fields). -/
def query2 : String :=
  "\nquery \x7b\n  devices(first: 2) \x7b\n    edges \x7b\n      node \x7b\n        id\n        name\n        ip\n        state\n      \x7d\n    \x7d\n  \x7d\n\x7d\n"

/-- Literal `query3` from `test_graphql.py` (deviceClass subfield). -/
def query3 : String :=
  "\nquery \x7b\n  devices(first: 2) \x7b\n    edges \x7b\n      node \x7b\n        id\n        name\n        deviceClass \x7b\n          name\n        \x7d\n      \x7d\n    \x7d\n  \x7d\n\x7d\n"

/-- Literal `query4` from `test_graphql.py` (organization structure). -/
def query4 : String :=
  "\nquery \x7b\n  devices(first: 2) \x7b\n    edges \x7b\n      node \x7b\n        id\n        name\n        organization \x7b\n          name\n        \x7d\n      \x7d\n    \x7d\n  \x7d\n\x7d\n"

/-- Literal `query5` from `test_graphql.py` (pagination: `pageInfo` with
`hasNextPage` is requested but never followed up). -/
def query5 : String :=
  "\nquery \x7b\n  devices(first: 2) \x7b\n    edges \x7b\n      node \x7b\n        id\n        name\n      \x7d\n    \x7d\n    pageInfo \x7b\n      hasNextPage\n    \x7d\n  \x7d\n\x7d\n"

/-- Literal `query6` from `test_graphql.py` (search as a plain string). -/
def query6 : String :=
  "\nquery \x7b\n  devices(first: 2, search: \"server\") \x7b\n    edges \x7b\n      node \x7b\n        id\n        name\n      \x7d\n    \x7d\n  \x7d\n\x7d\n"

/-- First inline query of `test_fields.py` (deviceClass with id). -/
def fieldsQuery1 : String :=
  "\nquery \x7b\n  devices(first: 1) \x7b\n    edges \x7b\n      node \x7b\n        id\n        name\n        deviceClass \x7b\n          id\n        \x7d\n      \x7d\n    \x7d\n  \x7d\n\x7d\n"

/-- Second inline query of `test_fields.py` (organization with id). -/
def fieldsQuery2 : String :=
  "\nquery \x7b\n  devices(first: 1) \x7b\n    edges \x7b\n      node \x7b\n        id\n        name\n        organization \x7b\n          id\n        \x7d\n      \x7d\n    \x7d\n  \x7d\n\x7d\n"

/-- Third inline query of `test_fields.py` (structured DeviceSearch). -/
def fieldsQuery3 : String :=
  "\nquery \x7b\n  devices(first: 2, search: \x7bname: \x7bcontains: \"SELAB\"\x7d\x7d) \x7b\n    edges \x7b\n      node \x7b\n        id\n        name\n      \x7d\n    \x7d\n  \x7d\n\x7d\n"

/-- Fourth inline query of `test_fields.py` (complete working query). -/
def fieldsQuery4 : String :=
  "\nquery \x7b\n  devices(first: 3) \x7b\n    edges \x7b\n      node \x7b\n        id\n        name\n        ip\n        state\n        deviceClass \x7b\n          id\n        \x7d\n        organization \x7b\n          id\n        \x7d\n      \x7d\n    \x7d\n    pageInfo \x7b\n      hasNextPage\n    \x7d\n  \x7d\n\x7d\n"

/-- Literal `WORKING_QUERY` from `correct_query.py`. -/
def WORKING_QUERY : String :=
  "\nquery GetDevices($limit: Int!) \x7b\n  devices(first: $limit) \x7b\n    edges \x7b\n      node \x7b\n        id\n        name\n        ip\n        state\n        deviceClass \x7b\n          id\n        \x7d\n        organization \x7b\n          id\n        \x7d\n      \x7d\n    \x7d\n    pageInfo \x7b\n      hasNextPage\n    \x7d\n  \x7d\n\x7d\n"

/-- Literal `SEARCH_QUERY` from `correct_query.py`. -/
def SEARCH_QUERY : String :=
  "\nquery SearchDevices($searchTerm: String!, $limit: Int!) \x7b\n  devices(\n    search: \x7bname: \x7bcontains: $searchTerm\x7d\x7d\n    first: $limit\n  ) \x7b\n    edges \x7b\n      node \x7b\n        id\n        name\n        ip\n        state\n      \x7d\n    \x7d\n  \x7d\n\x7d\n"

/-- Embedding of the whole of `test_graphql.py`: the TEST 1 banner, six
`test_query` calls (all with the default `variables=None`), and the
closing banner.  Every exception is swallowed inside `test_query`, so
nothing ever reaches the top level and the exit status is 0. -/
def testGraphqlScript (server : HttpRequest → HttpOutcome) : ScriptRun :=
  let t1 := testQueryGraphql "Basic devices" query1 none server
  let t2 := testQueryGraphql "Devices with state" query2 none server
  let t3 := testQueryGraphql "Devices with deviceClass" query3 none server
  let t4 := testQueryGraphql "Devices with organization" query4 none server
  let t5 := testQueryGraphql "Devices with pagination" query5 none server
  let t6 := testQueryGraphql "Devices with search" query6 none server
  { requests := t1.requests ++ t2.requests ++ t3.requests
      ++ t4.requests ++ t5.requests ++ t6.requests,
    output :=
      ["\n" ++ sep60, "TEST 1: Basic devices query (no parameters)", sep60]
      ++ t1.output ++ t2.output ++ t3.output ++ t4.output ++ t5.output
      ++ t6.output
      ++ ["\n" ++ sep60, "TESTING COMPLETE!", sep60],
    uncaught := none }

/-- Embedding of the whole of `test_fields.py`: four `test_query` calls
and nothing else at the top level.  As in `test_graphql.py`, every
exception is swallowed inside `test_query`. -/
def testFieldsScript (server : HttpRequest → HttpOutcome) : ScriptRun :=
  let t1 := testQueryFields "deviceClass with id" fieldsQuery1 server
  let t2 := testQueryFields "organization with id" fieldsQuery2 server
  let t3 := testQueryFields "search with DeviceSearch object" fieldsQuery3 server
  let t4 := testQueryFields "Complete working query" fieldsQuery4 server
  { requests := t1.requests ++ t2.requests ++ t3.requests ++ t4.requests,
    output := t1.output ++ t2.output ++ t3.output ++ t4.output,
    uncaught := none }

/-- The single request posted by `correct_query.py`: body
`\x7b"query": WORKING_QUERY, "variables": \x7b"limit": 5\x7d\x7d`. -/
def correctRequest : HttpRequest :=
  { method := "POST", url := SL1_URL,
    body := Json.obj [("query", Json.str WORKING_QUERY),
                      ("variables", Json.obj [("limit", Json.num 5)])],
    authUser := SL1_USER, authPass := SL1_PASS, verify := false }

/-- Embedding of the whole of `correct_query.py`: one POST at module
level with NO `try`/`except` around it.  If the post or
`response.json()` raises, the exception propagates out of the script
(traceback on stderr, exit status 1) and none of the prints run;
otherwise the script prints the working query, the pretty-printed
response and the search query, and exits with status 0. -/
def correctQueryScript (server : HttpRequest → HttpOutcome) : ScriptRun :=
  match server correctRequest with
  | .exn e => { requests := [correctRequest], output := [], uncaught := some e }
  | .ok result =>
      { requests := [correctRequest],
        output :=
          ["✅ WORKING LAMBDA QUERY:", sep50, WORKING_QUERY,
           "\n✅ SAMPLE RESPONSE:", dumps result,
           "\n" ++ sep50, "✅ WORKING SEARCH QUERY:", sep50, SEARCH_QUERY],
        uncaught := none }

/-- Outcome of one probe call, as the spec's `QueryResult`: the `data`
and `errors` parts the call reports, and the transport fault if the
request itself failed.  Populated exactly the way both `test_query`
helpers classify a call: the `except` branch captures the exception,
and otherwise the two independent `if "errors" in result` /
`if "data" in result` checks pick the reported parts. -/
structure QueryResult where
  data : Option Json
  errors : Option Json
  transportError : Option String

/-- Classification of a single call's outcome as performed by
`test_query` in `test_graphql.py` and `test_fields.py`: an exception
becomes a transport error; a parsed body contributes its `errors` and
`data` fields, each reported independently of the other. -/
def executeResult (outcome : HttpOutcome) : QueryResult :=
  match outcome with
  | .exn e => { data := none, errors := none, transportError := some e }
  | .ok body =>
      { data := if body.hasKey "data" then some (body.getKey "data") else none,
        errors := if body.hasKey "errors" then some (body.getKey "errors") else none,
        transportError := none }

/-- Number of populated fields among \x7bdata, errors, transport-error\x7d
of a result. -/
def QueryResult.populatedCount (r : QueryResult) : Nat :=
  (if r.data.isSome then 1 else 0) + (if r.errors.isSome then 1 else 0)
    + (if r.transportError.isSome then 1 else 0)

/-- Connection parameters read by every probe call: in the scripts these
are the module-level constants `SL1_URL`, `SL1_USER`, `SL1_PASS` and the
literal `verify=False`. -/
structure Config where
  url : String
  username : String
  password : String
  verifyTLS : Bool

/-- One-time configuration: in the scripts this is the module-level
constant block executed at import time. -/
def configure (url username password : String) (verifyTLS : Bool) : Config :=
  { url := url, username := username, password := password, verifyTLS := verifyTLS }

/-- The configuration all three scripts run under. -/
def scriptConfig : Config := configure SL1_URL SL1_USER SL1_PASS false

/-- State-passing embedding of one probe call (`test_query`'s POST plus
outcome classification), with the configuration threaded explicitly.
The body of `test_query` only reads the module-level constants and
writes no module state, so the call returns the configuration
unchanged. -/
def executeCall (c : Config) (query : String) (vars : Option Json)
    (server : HttpRequest → HttpOutcome) : QueryResult × Config :=
  let req : HttpRequest :=
    { method := "POST", url := c.url,
      body := Json.obj [("query", Json.str query),
                        ("variables", variablesOrEmpty vars)],
      authUser := c.username, authPass := c.password, verify := c.verifyTLS }
  (executeResult (server req), c)

/-- A response body carrying both a `data` and an `errors` field, as the
GraphQL spec permits. -/
def bodyDataErrors : Json :=
  Json.obj [("data", Json.obj [("x", Json.num 1)]),
            ("errors", Json.arr [Json.obj [("message", Json.str "bad field")]])]

/-- The payload `\x7b"x": 1\x7d`. -/
def dataX1 : Json := Json.obj [("x", Json.num 1)]

/-- A response body `\x7b"data": \x7b"x": 1\x7d\x7d` with no errors. -/
def bodyDataX1 : Json := Json.obj [("data", dataX1)]

/-- A mock server that answers every request with an empty JSON object. -/
def srvEmptyOk : HttpRequest → HttpOutcome :=
  fun _ => HttpOutcome.ok (Json.obj [])

/-- Requests issued by one `test_query` call of `test_graphql.py`:
exactly the one POST built from the query and variables. -/
theorem testQueryGraphql_requests (n q : String) (v : Option Json)
    (server : HttpRequest → HttpOutcome) :
    (testQueryGraphql n q v server).requests = [graphqlRequest q v] := rfl

/-- Requests issued by one `test_query` call of `test_fields.py`:
exactly the one POST built from the query. -/
theorem testQueryFields_requests (n q : String)
    (server : HttpRequest → HttpOutcome) :
    (testQueryFields n q server).requests = [fieldsRequest q] := rfl

/-- Requests issued by `correct_query.py`: exactly one POST, whatever
the server answers. -/
theorem correctQueryScript_requests (server : HttpRequest → HttpOutcome) :
    (correctQueryScript server).requests = [correctRequest] := by
  cases h : server correctRequest <;> simp [correctQueryScript, h]

/-- C1: for every `test_query` call whose response body parses as JSON,
if the body has an `errors` field the call reports those errors, if it
has a `data` field it reports that data, and the two checks are
independent, so when both fields are present both are reported. -/
theorem c1_execute_reports_both (n q : String) (v : Option Json) (body : Json) :
    (body.hasKey "errors" = true →
      "❌ GraphQL Errors:" ∈ (testQueryGraphql n q v (fun _ => HttpOutcome.ok body)).output
      ∧ "❌ Errors:" ∈ (testQueryFields n q (fun _ => HttpOutcome.ok body)).output
      ∧ (executeResult (HttpOutcome.ok body)).errors = some (body.getKey "errors"))
    ∧ (body.hasKey "data" = true →
      "✅ Data received:" ∈ (testQueryGraphql n q v (fun _ => HttpOutcome.ok body)).output
      ∧ "✅ Data:" ∈ (testQueryFields n q (fun _ => HttpOutcome.ok body)).output
      ∧ (executeResult (HttpOutcome.ok body)).data = some (body.getKey "data")) := by
  constructor <;> intro h <;>
    simp [testQueryGraphql, testQueryFields, executeResult, gqlBanner, fieldsBanner, h]

/-- C1 witness: on a body carrying both `data` and `errors`, both
marker lines appear in the output of `test_graphql.py`'s `test_query`. -/
theorem c1_witness :
    "❌ GraphQL Errors:"
        ∈ (testQueryGraphql "n" "q" none (fun _ => HttpOutcome.ok bodyDataErrors)).output
    ∧ "✅ Data received:"
        ∈ (testQueryGraphql "n" "q" none (fun _ => HttpOutcome.ok bodyDataErrors)).output :=
  ⟨((c1_execute_reports_both "n" "q" none bodyDataErrors).1 rfl).1,
   ((c1_execute_reports_both "n" "q" none bodyDataErrors).2 rfl).1⟩

/-- C2 counterexample: in `correct_query.py` the POST is not wrapped in
any `try`/`except`, so a refused connection propagates out of the call
as an uncaught exception and kills the process — contradicting the
claim that no script lets a transport fault escape. -/
theorem c2_counterexample :
    (correctQueryScript (fun _ => HttpOutcome.exn "Connection refused")).uncaught
      = some "Connection refused" := rfl

/-- C2 amended: in `test_graphql.py` and `test_fields.py` every
transport fault is caught by `test_query`'s catch-all handler and
printed as `❌ Request failed: ...`, and no exception reaches the top
level; in `correct_query.py`, by contrast, the fault propagates
uncaught. -/
theorem c2_amended_faults_as_data (server : HttpRequest → HttpOutcome)
    (e n q : String) (v : Option Json) :
    (testGraphqlScript server).uncaught = none
    ∧ (testFieldsScript server).uncaught = none
    ∧ ("❌ Request failed: " ++ e)
        ∈ (testQueryGraphql n q v (fun _ => HttpOutcome.exn e)).output
    ∧ ("❌ Request failed: " ++ e)
        ∈ (testQueryFields n q (fun _ => HttpOutcome.exn e)).output
    ∧ (correctQueryScript (fun _ => HttpOutcome.exn e)).uncaught = some e := by
  refine ⟨rfl, rfl, ?_, ?_, rfl⟩ <;>
    simp [testQueryGraphql, testQueryFields, gqlBanner, fieldsBanner]

/-- C3 counterexample: on a body carrying both fields, the result of a
call has two of \x7bdata, errors, transport-error\x7d populated at
once, contradicting the claimed exactly-one invariant. -/
theorem c3_counterexample :
    (executeResult (HttpOutcome.ok bodyDataErrors)).populatedCount = 2 := rfl

/-- C3 amended: transport-error is populated exactly on a transport
fault, and then data and errors are empty; on a parsed body
transport-error is empty while data and errors are populated
independently of each other (possibly both, possibly neither). -/
theorem c3_amended_exclusivity (e : String) (body : Json) :
    ((executeResult (HttpOutcome.exn e)).data = none
      ∧ (executeResult (HttpOutcome.exn e)).errors = none
      ∧ (executeResult (HttpOutcome.exn e)).transportError = some e)
    ∧ (executeResult (HttpOutcome.ok body)).transportError = none :=
  ⟨⟨rfl, rfl, rfl⟩, rfl⟩

/-- C4 counterexample: `test_fields.py` posts bodies whose only key is
`query` — the `variables` key is absent, contradicting the claim that
every request body of every script carries both keys. -/
theorem c4_counterexample :
    ∃ r ∈ (testFieldsScript srvEmptyOk).requests,
      r.body.keys = ["query"] ∧ r.body.hasKey "variables" = false :=
  ⟨fieldsRequest fieldsQuery1, by simp [testFieldsScript, testQueryFields], rfl, rfl⟩

/-- C4 amended: every request of every script is a POST to the path
`/gql` with basic auth from `SL1_USER`/`SL1_PASS`; the bodies posted by
`test_graphql.py` and `correct_query.py` have exactly the keys `query`
(a string) and `variables` (an object), while the bodies posted by
`test_fields.py` have exactly the key `query` (a string). -/
theorem c4_amended_request_shape (server : HttpRequest → HttpOutcome)
    (r : HttpRequest) :
    ((r ∈ (testGraphqlScript server).requests
        ∨ r ∈ (correctQueryScript server).requests) →
      r.method = "POST" ∧ urlPath r.url = "/gql"
      ∧ r.authUser = SL1_USER ∧ r.authPass = SL1_PASS
      ∧ r.body.keys = ["query", "variables"]
      ∧ (∃ q, r.body.getKey "query" = Json.str q)
      ∧ (∃ fs, r.body.getKey "variables" = Json.obj fs))
    ∧ (r ∈ (testFieldsScript server).requests →
      r.method = "POST" ∧ urlPath r.url = "/gql"
      ∧ r.authUser = SL1_USER ∧ r.authPass = SL1_PASS
      ∧ r.body.keys = ["query"]
      ∧ (∃ q, r.body.getKey "query" = Json.str q)) := by
  constructor
  · intro hr
    rw [correctQueryScript_requests] at hr
    simp [testGraphqlScript, testQueryGraphql_requests] at hr
    rcases hr with (h | h | h | h | h | h) | h <;> subst h <;>
      exact ⟨rfl, rfl, rfl, rfl, rfl, ⟨_, rfl⟩, ⟨_, rfl⟩⟩
  · intro hr
    simp [testFieldsScript, testQueryFields_requests] at hr
    rcases hr with h | h | h | h <;> subst h <;>
      exact ⟨rfl, rfl, rfl, rfl, rfl, ⟨_, rfl⟩⟩

/-- C4 witness: the amended statement evaluated on the first request of
`test_graphql.py` and the first request of `test_fields.py`. -/
theorem c4_witness :
    (graphqlRequest query1 none).body.keys = ["query", "variables"]
    ∧ (fieldsRequest fieldsQuery1).body.keys = ["query"] :=
  ⟨(((((c4_amended_request_shape srvEmptyOk (graphqlRequest query1 none)).1
      (Or.inl (by simp [testGraphqlScript, testQueryGraphql_requests]))).2).2).2).2.1,
   (((((c4_amended_request_shape srvEmptyOk (fieldsRequest fieldsQuery1)).2
      (by simp [testFieldsScript, testQueryFields_requests])).2).2).2).2.1⟩

/-- C5 counterexample: when the single POST of `correct_query.py`
raises, the script dies with an uncaught exception and exit status 1,
contradicting the claim that every script always exits 0. -/
theorem c5_counterexample :
    (correctQueryScript (fun _ => HttpOutcome.exn "Connection timed out")).exitCode
      = 1 := rfl

/-- C5 amended: `test_graphql.py` and `test_fields.py` always exit 0
whatever the server does (GraphQL errors and transport faults are only
printed); `correct_query.py` exits 0 when its POST yields a parsed
body, but exits 1 on a transport fault. -/
theorem c5_amended_exit_codes (server : HttpRequest → HttpOutcome)
    (body : Json) (e : String) :
    (testGraphqlScript server).exitCode = 0
    ∧ (testFieldsScript server).exitCode = 0
    ∧ (correctQueryScript (fun _ => HttpOutcome.ok body)).exitCode = 0
    ∧ (correctQueryScript (fun _ => HttpOutcome.exn e)).exitCode = 1 :=
  ⟨rfl, rfl, rfl, rfl⟩

/-- C6: each embedded call issues exactly one HTTP POST whatever the
server answers — in particular there is no retry on a fault and no
follow-up request when the response's `pageInfo.hasNextPage` is true —
and each script issues exactly one request per call it makes. -/
theorem c6_single_attempt (server : HttpRequest → HttpOutcome)
    (n q : String) (v : Option Json) :
    (testQueryGraphql n q v server).requests.length = 1
    ∧ (testQueryFields n q server).requests.length = 1
    ∧ (correctQueryScript server).requests.length = 1
    ∧ (testGraphqlScript server).requests.length = 6
    ∧ (testFieldsScript server).requests.length = 4 := by
  refine ⟨rfl, rfl, ?_, rfl, rfl⟩
  rw [correctQueryScript_requests]
  rfl

/-- C7: probe calls are stateless — the configuration threaded through
a call comes back unchanged, and the result of a second call after a
first one is exactly the result of running the second call alone. -/
theorem c7_stateless (c : Config) (qa qb : String) (va vb : Option Json)
    (server : HttpRequest → HttpOutcome) :
    (executeCall c qa va server).2 = c
    ∧ (executeCall (executeCall c qa va server).2 qb vb server).1
        = (executeCall c qb vb server).1
    ∧ (executeCall (executeCall c qa va server).2 qb vb server).2 = c :=
  ⟨rfl, rfl, rfl⟩

/-- C8: for any well-formed request, when the server's body is exactly
`\x7b"data": \x7b"x": 1\x7d\x7d` the call's result has that data and
reports no errors and no transport fault, and the output of
`test_graphql.py`'s `test_query` contains the data section and no
errors section. -/
theorem c8_data_x1 (q : String) (v : Option Json) :
    (executeResult (HttpOutcome.ok bodyDataX1)).data = some dataX1
    ∧ (executeResult (HttpOutcome.ok bodyDataX1)).errors = none
    ∧ (executeResult (HttpOutcome.ok bodyDataX1)).transportError = none
    ∧ "✅ Data received:"
        ∈ (testQueryGraphql "Q" q v (fun _ => HttpOutcome.ok bodyDataX1)).output
    ∧ "❌ GraphQL Errors:"
        ∉ (testQueryGraphql "Q" q v (fun _ => HttpOutcome.ok bodyDataX1)).output := by
  refine ⟨rfl, rfl, rfl, ?_, ?_⟩
  · show "✅ Data received:"
        ∈ (testQueryGraphql "Q" "" none (fun _ => HttpOutcome.ok bodyDataX1)).output
    decide
  · show "❌ GraphQL Errors:"
        ∉ (testQueryGraphql "Q" "" none (fun _ => HttpOutcome.ok bodyDataX1)).output
    decide

/-- C9: in `test_graphql.py`'s `test_query`, `variables or \x7b\x7d`
sends the empty object when `variables` is omitted or falsy, and every
posted body carries a `variables` key. -/
theorem c9_variables_default (q : String) (j : Json) (h : j.pyTruthy = false) :
    (graphqlRequest q none).body.getKey "variables" = Json.obj []
    ∧ (graphqlRequest q (some j)).body.getKey "variables" = Json.obj []
    ∧ (∀ v : Option Json, (graphqlRequest q v).body.hasKey "variables" = true)
    ∧ ∀ (n : String) (server : HttpRequest → HttpOutcome),
        (testQueryGraphql n q none server).requests = [graphqlRequest q none] := by
  refine ⟨rfl, ?_, fun v => rfl, fun n server => rfl⟩
  have h2 : variablesOrEmpty (some j) = Json.obj [] := by
    simp [variablesOrEmpty, h]
  show (Json.obj [("query", Json.str q),
                  ("variables", variablesOrEmpty (some j))]).getKey "variables"
      = Json.obj []
  rw [h2]
  rfl

/-- C9 witness: with the falsy value `\x7b\x7d` (the empty mapping) the
posted `variables` field is the empty object. -/
theorem c9_witness :
    (graphqlRequest "q" (some (Json.obj []))).body.getKey "variables"
      = Json.obj [] :=
  (c9_variables_default "q" (Json.obj []) rfl).2.1

/-- C10: when the parsed body has neither a `data` nor an `errors` key,
both `test_query` helpers print exactly the section banner and nothing
else — the body is silently ignored, no exception is raised. -/
theorem c10_silent_empty_body (n q : String) (v : Option Json) (body : Json)
    (hd : body.hasKey "data" = false) (he : body.hasKey "errors" = false) :
    (testQueryGraphql n q v (fun _ => HttpOutcome.ok body)).output = gqlBanner n
    ∧ (testQueryFields n q (fun _ => HttpOutcome.ok body)).output = fieldsBanner n := by
  constructor <;> simp [testQueryGraphql, testQueryFields, hd, he]

/-- C10 witness: on the empty JSON object both helpers print only their
banner. -/
theorem c10_witness :
    (testQueryGraphql "n" "q" none (fun _ => HttpOutcome.ok (Json.obj []))).output
      = gqlBanner "n"
    ∧ (testQueryFields "n" "q" (fun _ => HttpOutcome.ok (Json.obj []))).output
      = fieldsBanner "n" :=
  c10_silent_empty_body "n" "q" none (Json.obj []) rfl rfl
